import Mathlib

/-!
Shallow embedding of the two serverless upload-analysis handlers of this
repository (the Gemini-flavoured handler, called `Part000` below, and the
Lovable-gateway handler `api/analyze.ts`, called `Analyze` below), together
with theorems checking the natural-language specification against them.

Platform primitives of the JavaScript runtime (JSON.parse, the messages of
engine-generated errors, the single outbound `fetch`) are modelled as
parameters: the handlers are pure functions of the request, the environment,
the platform and the (single) fetch outcome, and they report the outbound
request they made, if any.
-/

/-- JSON values, as produced by `JSON.parse` and consumed by
`JSON.stringify`. Numbers are modelled as integers; no claim computes with a
fractional value. -/
inductive Json where
  | null : Json
  | bool : Bool → Json
  | num : Int → Json
  | str : String → Json
  | arr : List Json → Json
  | obj : List (String × Json) → Json

/-- Property lookup `j["k"]` on a JSON value: on an object, the last binding
of the key (the one `JSON.parse` would have kept); `none` plays the role of
the JavaScript undefined (property access on arrays and primitives other
than `null`). -/
def Json.getProp : Json → String → Option Json
  | .obj fields, k => ((fields.filter (fun p => p.1 == k)).getLast?).map (fun p => p.2)
  | _, _ => none

/-- Index access `j[i]`: an element of an array, a one-character string of a
string, `undefined` otherwise. -/
def Json.getIdx : Json → Nat → Option Json
  | .arr xs, i => xs.get? i
  | .str s, i => (s.toList.get? i).map (fun c => Json.str (String.singleton c))
  | _, _ => none

/-- Is this JSON value an array (`Array.isArray`)? -/
def Json.isArrayVal : Json → Bool
  | .arr _ => true
  | _ => false

/-- Is this JSON value the JSON null (the one value on which member access
throws a TypeError)? -/
def isNullJson : Json → Bool
  | .null => true
  | _ => false

/-- JavaScript truthiness of a defined value. -/
def jsTruthy : Json → Bool
  | .null => false
  | .bool b => b
  | .num n => n != 0
  | .str s => s != ""
  | _ => true

/-- Truthiness of a possibly-`undefined` value (`none` = `undefined`). -/
def jsTruthyOpt : Option Json → Bool
  | none => false
  | some j => jsTruthy j

/-- Optional-chaining property access `o?.k`: short-circuits on `undefined`
and on `null`. -/
def optProp (o : Option Json) (k : String) : Option Json :=
  match o with
  | none => none
  | some .null => none
  | some j => Json.getProp j k

/-- Optional-chaining index access `o?.[i]`. -/
def optIdx (o : Option Json) (i : Nat) : Option Json :=
  match o with
  | none => none
  | some .null => none
  | some j => Json.getIdx j i

/-- JavaScript `a || b` on strings (`""` is falsy). -/
def jsOr (a b : String) : String :=
  if a = "" then b else a

/-- JavaScript `String.prototype.includes`: substring occurrence test. -/
def listHasSub (pat : List Char) : List Char → Bool
  | [] => pat.isEmpty
  | c :: rest => List.isPrefixOf pat (c :: rest) || listHasSub pat rest

/-- `s.includes(sub)` on strings. -/
def jsIncludes (s sub : String) : Bool :=
  listHasSub sub.toList s.toList

/-- Leftmost, non-overlapping removal of every occurrence of `pat`, the
effect of `s.replace(/pat/g, "")` for a literal pattern. The fuel argument
(instantiated with the length of the input, which each step consumes at least
one of) only makes the recursion structural. -/
def removeAllList (pat : List Char) : Nat → List Char → List Char
  | _, [] => []
  | 0, l => l
  | fuel + 1, c :: rest =>
    if 0 < pat.length ∧ List.isPrefixOf pat (c :: rest) then
      removeAllList pat fuel (List.drop (pat.length - 1) rest)
    else
      c :: removeAllList pat fuel rest

/-- `s.replace(/pat/g, "")` on strings. -/
def removeAll (s pat : String) : String :=
  String.mk (removeAllList pat.toList s.toList.length s.toList)

/-- `s.toLowerCase()`. -/
def jsToLower (s : String) : String := String.mk (s.toList.map Char.toLower)

/-- `s.startsWith(pat)`. -/
def jsStartsWith (s pat : String) : Bool := List.isPrefixOf pat.toList s.toList

/-- `s.endsWith(pat)`. -/
def jsEndsWith (s pat : String) : Bool :=
  List.isPrefixOf pat.toList.reverse s.toList.reverse

/-- The white-space and line-terminator characters `String.prototype.trim`
strips. -/
def isJsSpace (c : Char) : Bool :=
  c = '\x09' || c = '\x0a' || c = '\x0b' || c = '\x0c' || c = '\x0d' || c = ' ' ||
  c = '\u00a0' || c = '\u1680' || ('\u2000' ≤ c && c ≤ '\u200a') ||
  c = '\u2028' || c = '\u2029' || c = '\u202f' || c = '\u205f' ||
  c = '\u3000' || c = '\ufeff'

/-- `s.trim()`. -/
def jsTrim (s : String) : String :=
  String.mk (((s.toList.dropWhile isJsSpace).reverse.dropWhile isJsSpace).reverse)

/-- The base64 alphabet. -/
def base64Chars : List Char :=
  "ABCDEFGHIJKLMNOPQRSTUVWXYZabcdefghijklmnopqrstuvwxyz0123456789+/".toList

/-- Character of a 6-bit group. -/
def base64Char (n : Nat) : Char := base64Chars.getD n 'A'

/-- Standard base64 with padding, the effect of
`Buffer.from(bytes).toString` with the base64 encoding; bytes are reduced
mod 256. -/
def base64Encode : List Nat → String
  | [] => ""
  | [a] =>
    let n := (a % 256) * 65536
    String.mk [base64Char (n / 262144), base64Char (n / 4096 % 64)] ++ "=="
  | [a, b] =>
    let n := (a % 256) * 65536 + (b % 256) * 256
    String.mk [base64Char (n / 262144), base64Char (n / 4096 % 64),
               base64Char (n / 64 % 64)] ++ "="
  | a :: b :: c :: rest =>
    let n := (a % 256) * 65536 + (b % 256) * 256 + c % 256
    String.mk [base64Char (n / 262144), base64Char (n / 4096 % 64),
               base64Char (n / 64 % 64), base64Char (n % 64)] ++ base64Encode rest

/-- The `file` form field: `name`, MIME `type` and `size` as exposed on the
`File` object, `text` the result of `await file.text()`, `bytes` the octets
of `await file.arrayBuffer()`. -/
structure UploadedFile where
  name : String
  type : String
  size : Nat
  text : String
  bytes : List Nat

/-- The parts of an incoming `Request` the handlers look at: the method, the
`Origin` header (`none` when absent) and the `file` form field (`none` when
absent). -/
structure HttpRequest where
  method : String
  origin : Option String
  file : Option UploadedFile

/-- A `Response` produced by a handler: status, headers in order, and the
JSON value passed to `JSON.stringify` for the body (`none` for a null body). -/
structure HttpResponse where
  status : Nat
  headers : List (String × String)
  body : Option Json

/-- The single outbound `fetch` a handler may make: URL, method, headers and
the JSON value passed to `JSON.stringify` for the request body. -/
structure OutboundRequest where
  url : String
  method : String
  headers : List (String × String)
  body : Json

/-- The outcome of the outbound `fetch`: `ok`, `status`, and the value
`await response.json()` would produce. -/
structure FetchResult where
  ok : Bool
  status : Nat
  bodyJson : Json

/-- JavaScript platform primitives the handlers rely on: `JSON.parse`
(`none` = a thrown `SyntaxError`), the message of that `SyntaxError` as a
function of the parsed text, and the messages of the engine TypeError
at the three places one can be thrown. -/
structure JsPlatform where
  parseJson : String → Option Json
  parseErrMsg : String → String
  tyErrNullRoot : String
  tyErrNoReplace : String
  tyErrNullData : String

/-- A complete run of a handler: the response it returns and the outbound
request it sent, if it made one. -/
structure HandlerResult where
  response : HttpResponse
  outbound : Option OutboundRequest

/-- `getCorsHeaders` (identical in both source files): reflect the `Origin`
header, falling back to `"*"` when it is null or empty. -/
def getCorsHeaders (origin : Option String) : List (String × String) :=
  [("Access-Control-Allow-Origin", match origin with | none => "*" | some s => jsOr s "*"),
   ("Access-Control-Allow-Methods", "POST, OPTIONS"),
   ("Access-Control-Allow-Headers", "authorization, x-client-info, apikey, content-type")]

/-- The Content-Type application/json header added to JSON responses. -/
def ctJson : List (String × String) := [("Content-Type", "application/json")]

/-- The stringified error body, error mapped to msg. -/
def errJson (msg : String) : Json :=
  Json.obj [("error", Json.str msg)]

/-- The success body: success true, data wrapping items, and fileName. -/
def successBody (items : Json) (fileName : String) : Json :=
  Json.obj [("success", Json.bool true), ("data", Json.obj [("items", items)]),
            ("fileName", Json.str fileName)]

/-- `10 * 1024 * 1024`, declared in both files (only `analyze.ts` checks it). -/
def MAX_FILE_SIZE : Nat := 10 * 1024 * 1024

/-- Dead configuration constant of `analyze.ts` (declared, never read). -/
def ALLOWED_ORIGINS : List String :=
  ["http://localhost:3000", "http://localhost:5173"]

/-- Reading `process.env.X` through the `if (!X) throw` guard: the value
when it is defined and non-empty. -/
def envTruthy : Option String → Option String
  | none => none
  | some s => if s = "" then none else some s

/-- The CSV-or-text test on the file MIME type and lower-cased file name
(identical in both files). -/
def isCsvOrText (file : UploadedFile) : Bool :=
  jsIncludes file.type "csv" || jsStartsWith file.type "text/" ||
    jsEndsWith (jsToLower file.name) ".csv"

/-- `extractedData.items || (Array.isArray(extractedData) ? extractedData : [])`
for a non-null parsed value (on `null` the member access throws instead). -/
def itemsOf (extractedData : Json) : Json :=
  let i := Json.getProp extractedData "items"
  if jsTruthyOpt i then i.getD (Json.arr [])
  else if Json.isArrayVal extractedData then extractedData
  else Json.arr []

/-- The markdown cleanup applied before `JSON.parse`:
the two global fence replacements with the empty string followed by trim. -/
def cleanFences (content : String) : String :=
  jsTrim (removeAll (removeAll content "\x60\x60\x60json") "\x60\x60\x60")

namespace Part000

/-- The fixed instruction prompt of the Gemini-flavoured handler. -/
def systemPrompt : String :=
  "\n" ++
  "    당신은 제조업 생산기술부의 \x27견적 검토 및 물량 산출 AI\x27입니다. \n" ++
  "    제공된 데이터는 엑셀/CSV 파일 내용이거나 이미지입니다.\n" ++
  "    이 데이터에서 **\x27선택된 시트\x27의 값**을 분석하여 형상, 치수, 여유치, Ingot 정보를 추출하세요.\n" ++
  "\n" ++
  "    **[분석 미션]**\n" ++
  "    1. **형상(Shape):** 파일명이나 데이터 헤더(W, T, OD, ID)를 보고 결정 (SQUARE, SHAFT, RING, SHELL, DISC).\n" ++
  "    2. **데이터 행 식별:** #, 숫자, 코드로 시작하는 유효 행만 분석 (헤더 제외).\n" ++
  "    3. **패턴 인식:**\n" ++
  "       - **제품 치수:** 행 앞쪽의 연속된 숫자 3개.\n" ++
  "       - **단조 치수:** 행 중간/뒤쪽의 연속된 숫자 3개 (제품보다 큼).\n" ++
  "       - **여유치:** 없으면 (단조 - 제품)으로 자동 계산.\n" ++
  "    4. **Ingot & 회수율 (중요):**\n" ++
  "       - **회수율(Yield/Recovery):** \x27회수율\x27, \x27수율\x27, \x27Yield\x27, \x27Recovery\x27 등의 헤더 아래에 있는 값을 찾으세요.\n" ++
  "         - 값의 형식은 **0.xx (소수점)** 또는 **xx% (백분율)** 입니다. (예: 0.68, 72%)\n" ++
  "         - 회수율은 보통 Ingot Type이나 중량 데이터 근처에 위치합니다.\n" ++
  "         - 만약 값이 없거나 유효한 범위(0.5 ~ 1.0)를 벗어난 경우, **기본값 0.68**을 적용하고 비고에 \x27기본 회수율 적용\x27이라고 적으세요.\n" ++
  "       - **Ingot Type:** 숫자 3자리+알파벳(예: 101C) 코드를 찾으세요. 없으면 (중량 / 회수율) 계산하여 비고에 기록.\n" ++
  "\n" ++
  "    **[응답 형식 (JSON Only)]**\n" ++
  "    반드시 아래 JSON 포맷만 출력하세요. 마크다운(\x60\x60\x60json) 쓰지 마세요.\n" ++
  "    \x7b\n" ++
  "      \"items\": [\n" ++
  "        \x7b\n" ++
  "          \"rowId\": \"#1\", \n" ++
  "          \"productName\": \"SQUARE\",\n" ++
  "          \"material\": \"SA266\",\n" ++
  "          \"inputSpec\": \x7b \"width\": 600, \"length\": 600, \"thickness\": 300 \x7d,\n" ++
  "          \"outputSpec\": \x7b \"width\": 600, \"length\": 850, \"thickness\": 300 \x7d,\n" ++
  "          \"allowanceSpec\": \x7b \"length\": 250 \x7d, \n" ++
  "          \"weight\": 1201,\n" ++
  "          \"ingotType\": \"101C\",\n" ++
  "          \"recoveryRate\": 0.68,\n" ++
  "          \"calculatedIngotWeight\": 1766.17,\n" ++
  "          \"note\": \"여유치 자동 계산됨.\"\n" ++
  "        \x7d\n" ++
  "      ]\n" ++
  "    \x7d\n" ++
  "    "

/-- The `catch` clause: status 500, an error body of message-or-fallback,
CORS plus content-type headers. -/
def catchResp (cors : List (String × String)) (msg : String) : HttpResponse :=
  ⟨500, cors ++ ctJson, some (errJson (jsOr msg "서버 처리 중 오류 발생"))⟩

/-- The two `parts` sent to Gemini: the prompt, then the file either as
wrapped text or as base64 `inline_data`. -/
def parts (file : UploadedFile) : List Json :=
  [Json.obj [("text", Json.str systemPrompt)]] ++
  (if isCsvOrText file then
    [Json.obj [("text", Json.str ("\n\n[FILE DATA START]\n파일명: " ++ file.name ++ "\n"
        ++ file.text ++ "\n[FILE DATA END]"))]]
  else
    [Json.obj [("inline_data", Json.obj
      [("mime_type", Json.str (jsOr file.type "application/pdf")),
       ("data", Json.str (base64Encode file.bytes))])]])

/-- The outbound Gemini request: the key travels in the URL query string. -/
def requestOf (API_KEY : String) (file : UploadedFile) : OutboundRequest :=
  ⟨"https://generativelanguage.googleapis.com/v1beta/models/gemini-1.5-flash:generateContent?key="
      ++ API_KEY,
   "POST",
   [("Content-Type", "application/json")],
   Json.obj [("contents", Json.arr
     [Json.obj [("role", Json.str "user"), ("parts", Json.arr (parts file))]])]⟩

/-- `aiResult.candidates?.[0]?.content?.parts?.[0]?.text`. -/
def aiContent (aiResult : Json) : Option Json :=
  optProp (optIdx (optProp (optProp (optIdx (Json.getProp aiResult "candidates") 0)
    "content") "parts") 0) "text"

/-- Everything after the `fetch`: non-ok check, content extraction with the
emptiness guard, markdown cleanup, `JSON.parse`, the `items` fallback chain,
and the success response; every throw lands in the `catch` clause. -/
def fetched (plat : JsPlatform) (fetchRes : FetchResult)
    (cors : List (String × String)) (file : UploadedFile) : HttpResponse :=
  if fetchRes.ok = false then
    catchResp cors ("Google API Error: " ++ toString fetchRes.status)
  else if isNullJson fetchRes.bodyJson then
    catchResp cors plat.tyErrNullRoot
  else
    match aiContent fetchRes.bodyJson with
    | none => catchResp cors "AI 응답이 비어있습니다."
    | some content =>
      if jsTruthy content = false then
        catchResp cors "AI 응답이 비어있습니다."
      else
        match content with
        | Json.str s =>
          match plat.parseJson (cleanFences s) with
          | none => catchResp cors (plat.parseErrMsg (cleanFences s))
          | some extractedData =>
            if isNullJson extractedData then
              catchResp cors plat.tyErrNullData
            else
              ⟨200, cors ++ ctJson, some (successBody (itemsOf extractedData) file.name)⟩
        | _ => catchResp cors plat.tyErrNoReplace

/-- The Gemini-flavoured handler, as a function of the `GEMINI_API_KEY`
environment variable, the platform, the fetch outcome and the request.
Note: `MAX_FILE_SIZE` is declared in this file but never checked here. -/
def handler (GEMINI_API_KEY : Option String) (plat : JsPlatform)
    (fetchRes : FetchResult) (req : HttpRequest) : HandlerResult :=
  let corsHeaders := getCorsHeaders req.origin
  if req.method = "OPTIONS" then
    ⟨⟨200, corsHeaders, none⟩, none⟩
  else if req.method ≠ "POST" then
    ⟨⟨405, corsHeaders ++ ctJson, some (errJson "Method Not Allowed")⟩, none⟩
  else
    match envTruthy GEMINI_API_KEY with
    | none => ⟨catchResp corsHeaders "GEMINI_API_KEY is not configured in Vercel Settings", none⟩
    | some API_KEY =>
      match req.file with
      | none => ⟨⟨400, corsHeaders ++ ctJson, some (errJson "No file provided")⟩, none⟩
      | some file =>
        ⟨fetched plat fetchRes corsHeaders file, some (requestOf API_KEY file)⟩

end Part000

namespace Analyze

/-- The instruction prompt of `api/analyze.ts`; it interpolates the uploaded
name of the uploaded file. -/
def systemPrompt (fileName : String) : String :=
  "\n" ++
  "    당신은 제조업 생산기술부의 \x27견적 검토 및 물량 산출 AI\x27입니다. \n" ++
  "    업로드된 파일(" ++ fileName ++ ")은 특정 시트(Sheet)의 내용을 담은 CSV 파일입니다.\n" ++
  "    이 파일은 **\x27선택된 시트\x27의 값만을 포함**하고 있으므로, 파일 내의 유효한 데이터 행을 찾아 분석하세요.\n" ++
  "\n" ++
  "    **[분석 미션]**\n" ++
  "    1. **형상(Shape) 확정:** 파일명에 있는 키워드(SQUARE, SHAFT, SHELL, RING, DISC, 화공기)를 최우선으로 하여 형상을 결정하세요.\n" ++
  "    2. **데이터 행 식별:** 첫 번째 컬럼이 \x27#\x27, 숫자(1, 2...), 또는 코드(P001)로 시작하는 행만 분석하세요. (헤더 행 무시)\n" ++
  "    3. **데이터 패턴 매핑 (Numeric Cluster Mapping):**\n" ++
  "       CSV 변환 과정에서 빈 컬럼(,,)이 많습니다. 헤더 위치 대신 **숫자가 뭉쳐있는 패턴**을 찾으세요.\n" ++
  "       - **Cluster 1 (제품 치수):** 행의 앞부분에 나타나는 **3개의 연속된 숫자**.\n" ++
  "       - **Cluster 2 (단조 치수):** 행의 중간/뒷부분에 나타나는 **3개의 연속된 숫자**. (값은 Cluster 1보다 크거나 같음)\n" ++
  "       - **Cluster 3 (여유치):** 만약 제품 치수와 단조 치수 사이에 숫자가 있다면 여유치입니다. 없으면 **(단조 - 제품)**으로 계산하세요.\n" ++
  "\n" ++
  "    **[형상별 치수 순서 가이드]**\n" ++
  "    - **SQUARE / BLOCK:** [L(길이), W(폭), T(두께)] 또는 [W, L, T]\n" ++
  "    - **ROUND (SHAFT/SHELL/RING):** [OD(외경), ID(내경), L(길이)]\n" ++
  "    \n" ++
  "    **[INGOT 및 회수율 분석]**\n" ++
  "    - **회수율(Yield):** 0.xx 또는 xx% 형태의 데이터. (없으면 기본값 0.68)\n" ++
  "    - **Ingot Type:** 숫자 3자리+알파벳(예: 101C, 566F, 168F).\n" ++
  "    - **Ingot 선정 로직:** 1. 문서에 Ingot Type이 있으면 추출.\n" ++
  "      2. 없으면, \x60계산된 필요 중량 = 단조 중량 / 회수율\x60을 구하고, 이를 비고(note)에 기록.\n" ++
  "\n" ++
  "    **[응답 형식 (JSON Only)]**\n" ++
  "    반드시 아래 JSON 포맷으로만 응답하세요.\n" ++
  "    \x7b\n" ++
  "      \"items\": [\n" ++
  "        \x7b\n" ++
  "          \"rowId\": \"#1\", \n" ++
  "          \"productName\": \"SQUARE\",\n" ++
  "          \"material\": \"SA266\",\n" ++
  "          \"inputSpec\": \x7b \"width\": 600, \"length\": 600, \"thickness\": 300 \x7d,\n" ++
  "          \"outputSpec\": \x7b \"width\": 600, \"length\": 850, \"thickness\": 300 \x7d,\n" ++
  "          \"allowanceSpec\": \x7b \"length\": 250 \x7d, \n" ++
  "          \"weight\": 1201,\n" ++
  "          \"ingotType\": \"101C\",\n" ++
  "          \"recoveryRate\": 0.68,\n" ++
  "          \"calculatedIngotWeight\": 1766.17,\n" ++
  "          \"note\": \"여유치 250mm 자동 계산됨. 회수율 68% 적용.\"\n" ++
  "        \x7d\n" ++
  "      ]\n" ++
  "    \x7d\n" ++
  "    "

/-- Modelled from the spec: the `catch` clause of `api/analyze.ts` is cut
off in the sources; per the spec every thrown error is relayed as a 500
JSON error body that still carries the CORS headers. -/
def catchResp (cors : List (String × String)) (msg : String) : HttpResponse :=
  ⟨500, cors ++ ctJson, some (errJson msg)⟩

/-- The `messagesContent` sent to the Lovable gateway: the prompt as a text
part, then the file either as a wrapped text part or as a base64 data URL
`image_url` part. -/
def messagesContent (file : UploadedFile) : List Json :=
  if isCsvOrText file then
    [Json.obj [("type", Json.str "text"), ("text", Json.str (systemPrompt file.name))],
     Json.obj [("type", Json.str "text"),
       ("text", Json.str ("\n\n[CSV DATA CONTENT START]\n" ++ file.text
          ++ "\n[CSV DATA CONTENT END]"))]]
  else
    [Json.obj [("type", Json.str "text"), ("text", Json.str (systemPrompt file.name))],
     Json.obj [("type", Json.str "image_url"),
       ("image_url", Json.obj [("url", Json.str ("data:" ++ jsOr file.type "application/pdf"
          ++ ";base64," ++ base64Encode file.bytes))])]]

/-- The outbound gateway request: the key travels in the `Authorization`
header as a bearer token. -/
def requestOf (LOVABLE_API_KEY : String) (file : UploadedFile) : OutboundRequest :=
  ⟨"https://ai.gateway.lovable.dev/v1/chat/completions",
   "POST",
   [("Authorization", "Bearer " ++ LOVABLE_API_KEY), ("Content-Type", "application/json")],
   Json.obj [("model", Json.str "google/gemini-2.5-flash"),
     ("messages", Json.arr [Json.obj [("role", Json.str "user"),
       ("content", Json.arr (messagesContent file))]]),
     ("max_tokens", Json.num 4000)]⟩

/-- `aiResult.choices?.[0]?.message?.content`. -/
def aiContent (aiResult : Json) : Option Json :=
  optProp (optProp (optIdx (Json.getProp aiResult "choices") 0) "message") "content"

/-- Everything after the `fetch`. The non-ok check and the content
emptiness guard are source code; the rest is modelled from the spec: the
source of `api/analyze.ts` is truncated in the middle of its parsing code,
and the spec describes the tail as strip markdown fences, parse the JSON
and relay it, mirroring the sibling handler. -/
def fetched (plat : JsPlatform) (fetchRes : FetchResult)
    (cors : List (String × String)) (file : UploadedFile) : HttpResponse :=
  if fetchRes.ok = false then
    catchResp cors ("AI Service Error: " ++ toString fetchRes.status)
  else if isNullJson fetchRes.bodyJson then
    catchResp cors plat.tyErrNullRoot
  else
    match aiContent fetchRes.bodyJson with
    | none => catchResp cors "Empty response from AI"
    | some content =>
      if jsTruthy content = false then
        catchResp cors "Empty response from AI"
      else
        match content with
        | Json.str s =>
          match plat.parseJson (cleanFences s) with
          | none => catchResp cors (plat.parseErrMsg (cleanFences s))
          | some extractedData =>
            if isNullJson extractedData then
              catchResp cors plat.tyErrNullData
            else
              ⟨200, cors ++ ctJson, some (successBody (itemsOf extractedData) file.name)⟩
        | _ => catchResp cors plat.tyErrNoReplace

/-- The `api/analyze.ts` handler, as a function of the `LOVABLE_API_KEY`
environment variable, the platform, the fetch outcome and the request. It
rejects oversized files with 413 before encoding anything. -/
def handler (LOVABLE_API_KEY : Option String) (plat : JsPlatform)
    (fetchRes : FetchResult) (req : HttpRequest) : HandlerResult :=
  let corsHeaders := getCorsHeaders req.origin
  if req.method = "OPTIONS" then
    ⟨⟨200, corsHeaders, none⟩, none⟩
  else if req.method ≠ "POST" then
    ⟨⟨405, corsHeaders ++ ctJson, some (errJson "Method Not Allowed")⟩, none⟩
  else
    match envTruthy LOVABLE_API_KEY with
    | none => ⟨catchResp corsHeaders "LOVABLE_API_KEY is not configured in Vercel Settings", none⟩
    | some LOVABLE_API_KEY =>
      match req.file with
      | none => ⟨⟨400, corsHeaders ++ ctJson, some (errJson "No file provided")⟩, none⟩
      | some file =>
        if file.size > MAX_FILE_SIZE then
          ⟨⟨413, corsHeaders ++ ctJson, some (errJson "File too large (Max 10MB)")⟩, none⟩
        else
          ⟨fetched plat fetchRes corsHeaders file, some (requestOf LOVABLE_API_KEY file)⟩

end Analyze

/-- The cleanup as the claim words it: every occurrence of the
"\x60\x60\x60json" fence removed, every occurrence of the bare
"\x60\x60\x60" fence removed, and the result trimmed of surrounding
whitespace. Stated separately from `cleanFences` so the two can be
compared. -/
def specCleaned (s : String) : String :=
  jsTrim (removeAll (removeAll s "\x60\x60\x60json") "\x60\x60\x60")

/-- The items selection as the amended claim words it: of the parsed value,
`items` field when it is present with a JS-truthy value, otherwise the
parsed value itself when it is an array, otherwise the empty array. -/
def specItems (v : Json) : Json :=
  match Json.getProp v "items" with
  | some w => if jsTruthy w then w else if Json.isArrayVal v then v else Json.arr []
  | none => if Json.isArrayVal v then v else Json.arr []

/-- A concrete platform instance for evaluating the handlers on closed
inputs. Its `JSON.parse` answers on the few strings the examples feed it;
the error messages are representative engine texts. -/
def platW : JsPlatform :=
  ⟨fun s =>
      if s = "X" then some (Json.obj [("items", Json.arr [])])
      else if s = "\x7b\"items\": null\x7d" then some (Json.obj [("items", Json.null)])
      else if s = "null" then some Json.null
      else none,
   fun _ => "Unexpected token",
   "Cannot read properties of null (reading \x27candidates\x27)",
   "content.replace is not a function",
   "Cannot read properties of null (reading \x27items\x27)"⟩

/-- A successful Gemini fetch outcome whose model answer is `s`. -/
def geminiFetch (s : String) : FetchResult :=
  ⟨true, 200, Json.obj [("candidates", Json.arr [Json.obj [("content",
     Json.obj [("parts", Json.arr [Json.obj [("text", Json.str s)]])])]])]⟩

/-- A successful Lovable-gateway fetch outcome whose model answer is `s`. -/
def lovableFetch (s : String) : FetchResult :=
  ⟨true, 200, Json.obj [("choices", Json.arr [Json.obj [("message",
     Json.obj [("content", Json.str s)])]])]⟩

/-- A small CSV upload. -/
def csvFile : UploadedFile := ⟨"data.csv", "text/csv", 120, "#,OD,ID\n1,600,300", []⟩

/-- A CSV upload one byte over the 10MB limit. -/
def bigFile : UploadedFile := ⟨"big.csv", "text/csv", 10485761, "a,b", []⟩

/-- An upload with an empty MIME type, taking the binary branch. -/
def pdfFile : UploadedFile := ⟨"scan.pdf", "", 5000, "", [37, 80, 68, 70]⟩

/-- A POST request carrying the given file. -/
def postReq (fl : UploadedFile) : HttpRequest :=
  ⟨"POST", some "http://localhost:5173", some fl⟩

/-- Helper: `specItems` agrees with the items fallback chain of the code. -/
theorem specItems_eq_itemsOf (v : Json) : specItems v = itemsOf v := by
  unfold specItems itemsOf jsTruthyOpt
  cases h : Json.getProp v "items" <;> simp [h]

/-- Helper: every branch after the Gemini fetch carries the CORS headers
followed by the JSON content type. -/
theorem Part000.fetched_headers_gem (plat : JsPlatform) (f : FetchResult)
    (cors : List (String × String)) (fl : UploadedFile) :
    (Part000.fetched plat f cors fl).headers = cors ++ ctJson := by
  unfold Part000.fetched
  split
  · rfl
  · split
    · rfl
    · split
      · rfl
      · split
        · rfl
        · split
          · split
            · rfl
            · split
              · rfl
              · rfl
          · rfl

/-- Helper: every branch after the gateway fetch carries the CORS headers
followed by the JSON content type. -/
theorem Analyze.fetched_headers_lov (plat : JsPlatform) (f : FetchResult)
    (cors : List (String × String)) (fl : UploadedFile) :
    (Analyze.fetched plat f cors fl).headers = cors ++ ctJson := by
  unfold Analyze.fetched
  split
  · rfl
  · split
    · rfl
    · split
      · rfl
      · split
        · rfl
        · split
          · split
            · rfl
            · split
              · rfl
              · rfl
          · rfl

/-- Claim C6: for every request whose method is neither OPTIONS nor POST,
both handlers return status 405 with JSON body error = Method Not Allowed
together with the CORS headers, and make no outbound call. -/
theorem claim6_method_not_allowed (gk lk : Option String) (plat : JsPlatform)
    (f : FetchResult) (req : HttpRequest)
    (h1 : req.method ≠ "OPTIONS") (h2 : req.method ≠ "POST") :
    Part000.handler gk plat f req =
      ⟨⟨405, getCorsHeaders req.origin ++ ctJson, some (errJson "Method Not Allowed")⟩, none⟩ ∧
    Analyze.handler lk plat f req =
      ⟨⟨405, getCorsHeaders req.origin ++ ctJson, some (errJson "Method Not Allowed")⟩, none⟩ := by
  refine ⟨?_, ?_⟩
  · unfold Part000.handler
    simp [h1, h2]
  · unfold Analyze.handler
    simp [h1, h2]

/-- Witness for C6 at the concrete method "GET". -/
theorem claim6_method_not_allowed_witness :
    (("GET" : String) ≠ "OPTIONS" ∧ ("GET" : String) ≠ "POST") ∧
    Part000.handler none platW (geminiFetch "X") ⟨"GET", none, none⟩ =
      ⟨⟨405, getCorsHeaders none ++ ctJson, some (errJson "Method Not Allowed")⟩, none⟩ :=
  ⟨⟨by decide, by decide⟩,
   (claim6_method_not_allowed none none platW (geminiFetch "X") ⟨"GET", none, none⟩
      (by decide) (by decide)).1⟩

/-- Claim C4: a request rejected during validation (non-POST method, falsy
API-key variable, absent file field, or, where checked, an oversized file)
produces its error response with no outbound call to the AI API. -/
theorem claim4_validation_no_outbound (gk lk : Option String) (plat : JsPlatform)
    (f : FetchResult) (req : HttpRequest) :
    (req.method ≠ "POST" ∨ envTruthy gk = none ∨ req.file = none →
      (Part000.handler gk plat f req).outbound = none) ∧
    (req.method ≠ "POST" ∨ envTruthy lk = none ∨ req.file = none ∨
        (∃ fl, req.file = some fl ∧ fl.size > MAX_FILE_SIZE) →
      (Analyze.handler lk plat f req).outbound = none) := by
  constructor
  · intro h
    unfold Part000.handler
    by_cases hm : req.method = "OPTIONS"
    · simp [hm]
    · by_cases hp : req.method = "POST"
      · rcases h with h | h | h
        · exact absurd hp h
        · simp [hm, hp, h]
        · cases hk : envTruthy gk <;> simp [hm, hp, h, hk]
      · simp [hm, hp]
  · intro h
    unfold Analyze.handler
    by_cases hm : req.method = "OPTIONS"
    · simp [hm]
    · by_cases hp : req.method = "POST"
      · rcases h with h | h | h | ⟨fl, hfl, hsz⟩
        · exact absurd hp h
        · simp [hm, hp, h]
        · cases hk : envTruthy lk <;> simp [hm, hp, h, hk]
        · cases hk : envTruthy lk <;> simp [hm, hp, hfl, hsz, hk]
      · simp [hm, hp]

/-- Witness for C4: a POST with an unset key makes no Gemini call, and an
oversized POST makes no gateway call. -/
theorem claim4_validation_no_outbound_witness :
    (envTruthy none = none) ∧ (bigFile.size > MAX_FILE_SIZE) ∧
    (Part000.handler none platW (geminiFetch "X") (postReq csvFile)).outbound = none ∧
    (Analyze.handler (some "k") platW (lovableFetch "X") (postReq bigFile)).outbound = none :=
  ⟨rfl, by decide,
   (claim4_validation_no_outbound none (some "k") platW (geminiFetch "X")
      (postReq csvFile)).1 (Or.inr (Or.inl rfl)),
   (claim4_validation_no_outbound none (some "k") platW (lovableFetch "X")
      (postReq bigFile)).2 (Or.inr (Or.inr (Or.inr ⟨bigFile, rfl, by decide⟩)))⟩

/-- Claim C2 (code bug witnessed): at a 10MB+1 upload, `analyze.ts` rejects
with 413 and makes no outbound call, but the Gemini-flavoured handler —
although it declares MAX_FILE_SIZE — performs no size check: it forwards
the oversized file to the AI API and answers 200. -/
theorem claim2_size_check_evaluation :
    MAX_FILE_SIZE < bigFile.size ∧
    (Analyze.handler (some "k") platW (lovableFetch "X") (postReq bigFile)).response.status = 413 ∧
    (Analyze.handler (some "k") platW (lovableFetch "X") (postReq bigFile)).response.body
      = some (errJson "File too large (Max 10MB)") ∧
    (Analyze.handler (some "k") platW (lovableFetch "X") (postReq bigFile)).outbound = none ∧
    (Part000.handler (some "k") platW (geminiFetch "X") (postReq bigFile)).outbound
      = some (Part000.requestOf "k" bigFile) ∧
    (Part000.handler (some "k") platW (geminiFetch "X") (postReq bigFile)).response.status = 200 :=
  ⟨by decide, rfl, rfl, rfl, rfl, rfl⟩

/-- Claim C5: on a validated POST, the uploaded file is sent to the model as
plain text exactly when its MIME type contains csv, or starts with text/,
or its lower-cased name ends with .csv; every other file has its bytes
base64-encoded into an inline-data (respectively data-URL image) part whose
MIME type is the type of the file, defaulting to application/pdf when empty. -/
theorem claim5_file_encoding (gk lk : Option String) (plat : JsPlatform)
    (f : FetchResult) (req : HttpRequest) (fl : UploadedFile) (kg kl : String)
    (hm : req.method = "POST") (hkg : envTruthy gk = some kg)
    (hkl : envTruthy lk = some kl) (hf : req.file = some fl) :
    (∃ filePart,
      (Part000.handler gk plat f req).outbound = some
        ⟨"https://generativelanguage.googleapis.com/v1beta/models/gemini-1.5-flash:generateContent?key="
            ++ kg,
         "POST", [("Content-Type", "application/json")],
         Json.obj [("contents", Json.arr [Json.obj [("role", Json.str "user"),
           ("parts", Json.arr [Json.obj [("text", Json.str Part000.systemPrompt)], filePart])]])]⟩ ∧
      ((jsIncludes fl.type "csv" = true ∨ jsStartsWith fl.type "text/" = true ∨
          jsEndsWith (jsToLower fl.name) ".csv" = true) →
        filePart = Json.obj [("text", Json.str ("\n\n[FILE DATA START]\n파일명: " ++ fl.name
          ++ "\n" ++ fl.text ++ "\n[FILE DATA END]"))]) ∧
      (¬ (jsIncludes fl.type "csv" = true ∨ jsStartsWith fl.type "text/" = true ∨
          jsEndsWith (jsToLower fl.name) ".csv" = true) →
        filePart = Json.obj [("inline_data", Json.obj
          [("mime_type", Json.str (if fl.type = "" then "application/pdf" else fl.type)),
           ("data", Json.str (base64Encode fl.bytes))])])) ∧
    (fl.size ≤ MAX_FILE_SIZE →
      ∃ filePart,
      (Analyze.handler lk plat f req).outbound = some
        ⟨"https://ai.gateway.lovable.dev/v1/chat/completions", "POST",
         [("Authorization", "Bearer " ++ kl), ("Content-Type", "application/json")],
         Json.obj [("model", Json.str "google/gemini-2.5-flash"),
           ("messages", Json.arr [Json.obj [("role", Json.str "user"),
             ("content", Json.arr [Json.obj [("type", Json.str "text"),
               ("text", Json.str (Analyze.systemPrompt fl.name))], filePart])]]),
           ("max_tokens", Json.num 4000)]⟩ ∧
      ((jsIncludes fl.type "csv" = true ∨ jsStartsWith fl.type "text/" = true ∨
          jsEndsWith (jsToLower fl.name) ".csv" = true) →
        filePart = Json.obj [("type", Json.str "text"),
          ("text", Json.str ("\n\n[CSV DATA CONTENT START]\n" ++ fl.text
            ++ "\n[CSV DATA CONTENT END]"))]) ∧
      (¬ (jsIncludes fl.type "csv" = true ∨ jsStartsWith fl.type "text/" = true ∨
          jsEndsWith (jsToLower fl.name) ".csv" = true) →
        filePart = Json.obj [("type", Json.str "image_url"),
          ("image_url", Json.obj [("url", Json.str ("data:"
            ++ (if fl.type = "" then "application/pdf" else fl.type)
            ++ ";base64," ++ base64Encode fl.bytes))])])) := by
  have hcond : isCsvOrText fl = true ↔
      (jsIncludes fl.type "csv" = true ∨ jsStartsWith fl.type "text/" = true ∨
        jsEndsWith (jsToLower fl.name) ".csv" = true) := by
    unfold isCsvOrText
    simp [Bool.or_eq_true, or_assoc]
  constructor
  · cases h : isCsvOrText fl
    · refine ⟨Json.obj [("inline_data", Json.obj
          [("mime_type", Json.str (jsOr fl.type "application/pdf")),
           ("data", Json.str (base64Encode fl.bytes))])], ?_, ?_, ?_⟩
      · unfold Part000.handler Part000.requestOf Part000.parts
        simp [hm, hkg, hf, h]
      · intro hc
        exact absurd (hcond.mpr hc) (by simp [h])
      · intro _
        rfl
    · refine ⟨Json.obj [("text", Json.str ("\n\n[FILE DATA START]\n파일명: " ++ fl.name
          ++ "\n" ++ fl.text ++ "\n[FILE DATA END]"))], ?_, ?_, ?_⟩
      · unfold Part000.handler Part000.requestOf Part000.parts
        simp [hm, hkg, hf, h]
      · intro _
        rfl
      · intro hn
        exact absurd (hcond.mp h) hn
  · intro hsz
    have hsz' : ¬ (fl.size > MAX_FILE_SIZE) := by omega
    cases h : isCsvOrText fl
    · refine ⟨Json.obj [("type", Json.str "image_url"),
          ("image_url", Json.obj [("url", Json.str ("data:" ++ jsOr fl.type "application/pdf"
            ++ ";base64," ++ base64Encode fl.bytes))])], ?_, ?_, ?_⟩
      · unfold Analyze.handler Analyze.requestOf Analyze.messagesContent
        simp [hm, hkl, hf, h, hsz']
      · intro hc
        exact absurd (hcond.mpr hc) (by simp [h])
      · intro _
        rfl
    · refine ⟨Json.obj [("type", Json.str "text"),
          ("text", Json.str ("\n\n[CSV DATA CONTENT START]\n" ++ fl.text
            ++ "\n[CSV DATA CONTENT END]"))], ?_, ?_, ?_⟩
      · unfold Analyze.handler Analyze.requestOf Analyze.messagesContent
        simp [hm, hkl, hf, h, hsz']
      · intro _
        rfl
      · intro hn
        exact absurd (hcond.mp h) hn

/-- Witness for C5 at a concrete binary upload (empty MIME type). -/
theorem claim5_file_encoding_witness :
    ((postReq pdfFile).method = "POST" ∧ envTruthy (some "k") = some "k" ∧
      (postReq pdfFile).file = some pdfFile) ∧
    (∃ filePart,
      (Part000.handler (some "k") platW (geminiFetch "X") (postReq pdfFile)).outbound = some
        ⟨"https://generativelanguage.googleapis.com/v1beta/models/gemini-1.5-flash:generateContent?key="
            ++ "k",
         "POST", [("Content-Type", "application/json")],
         Json.obj [("contents", Json.arr [Json.obj [("role", Json.str "user"),
           ("parts", Json.arr [Json.obj [("text", Json.str Part000.systemPrompt)], filePart])]])]⟩ ∧
      ((jsIncludes pdfFile.type "csv" = true ∨ jsStartsWith pdfFile.type "text/" = true ∨
          jsEndsWith (jsToLower pdfFile.name) ".csv" = true) →
        filePart = Json.obj [("text", Json.str ("\n\n[FILE DATA START]\n파일명: " ++ pdfFile.name
          ++ "\n" ++ pdfFile.text ++ "\n[FILE DATA END]"))]) ∧
      (¬ (jsIncludes pdfFile.type "csv" = true ∨ jsStartsWith pdfFile.type "text/" = true ∨
          jsEndsWith (jsToLower pdfFile.name) ".csv" = true) →
        filePart = Json.obj [("inline_data", Json.obj
          [("mime_type", Json.str (if pdfFile.type = "" then "application/pdf" else pdfFile.type)),
           ("data", Json.str (base64Encode pdfFile.bytes))])])) :=
  ⟨⟨rfl, rfl, rfl⟩,
   (claim5_file_encoding (some "k") (some "k") platW (geminiFetch "X") (postReq pdfFile)
      pdfFile "k" "k" rfl rfl rfl rfl).1⟩

/-- Claim C9 counterexample: with an Origin header that is present but
empty, the handler reflects "*" rather than the value of the header. -/
theorem claim9_empty_origin_counterexample :
    (Part000.handler none platW (geminiFetch "X") ⟨"OPTIONS", some "", none⟩).response.headers
      = [("Access-Control-Allow-Origin", "*"),
         ("Access-Control-Allow-Methods", "POST, OPTIONS"),
         ("Access-Control-Allow-Headers", "authorization, x-client-info, apikey, content-type")] ∧
    ("*" : String) ≠ "" :=
  ⟨rfl, by decide⟩

/-- Claim C9 (amended): every response of either handler carries the three
CORS headers, with Access-Control-Allow-Origin the Origin header
value, falling back to "*" when that header is absent or empty. -/
theorem claim9_cors_always (gk lk : Option String) (plat : JsPlatform)
    (f : FetchResult) (req : HttpRequest) :
    (∃ rest, (Part000.handler gk plat f req).response.headers
        = getCorsHeaders req.origin ++ rest) ∧
    (∃ rest, (Analyze.handler lk plat f req).response.headers
        = getCorsHeaders req.origin ++ rest) ∧
    getCorsHeaders req.origin =
      [("Access-Control-Allow-Origin",
          match req.origin with
          | none => "*"
          | some s => if s = "" then "*" else s),
       ("Access-Control-Allow-Methods", "POST, OPTIONS"),
       ("Access-Control-Allow-Headers", "authorization, x-client-info, apikey, content-type")] := by
  refine ⟨?_, ?_, ?_⟩
  · unfold Part000.handler
    dsimp only
    split
    · exact ⟨[], rfl⟩
    · split
      · exact ⟨ctJson, rfl⟩
      · split
        · exact ⟨ctJson, rfl⟩
        · split
          · exact ⟨ctJson, rfl⟩
          · exact ⟨ctJson, Part000.fetched_headers_gem _ _ _ _⟩
  · unfold Analyze.handler
    dsimp only
    split
    · exact ⟨[], rfl⟩
    · split
      · exact ⟨ctJson, rfl⟩
      · split
        · exact ⟨ctJson, rfl⟩
        · split
          · exact ⟨ctJson, rfl⟩
          · split
            · exact ⟨ctJson, rfl⟩
            · exact ⟨ctJson, Analyze.fetched_headers_lov _ _ _ _⟩
  · cases ho : req.origin
    · rfl
    · rfl

/-- Helper: appending cannot empty a non-empty string. -/
theorem append_ne_empty (s t : String) (h : s ≠ "") : s ++ t ≠ "" := by
  intro he
  apply h
  have hd := congrArg String.data he
  rw [String.data_append] at hd
  exact String.ext (List.append_eq_nil.mp hd).1

/-- Helper: JavaScript or returns its left operand when that is non-empty. -/
theorem jsOr_ne (a b : String) (h : a ≠ "") : jsOr a b = a := by
  unfold jsOr
  simp [h]

/-- Helper: a validated POST reaches the fetch and pairs the post-fetch
response with the Gemini request. -/
theorem Part000.handler_post_gem (gk : Option String) (plat : JsPlatform) (f : FetchResult)
    (req : HttpRequest) (fl : UploadedFile) (kg : String)
    (hm : req.method = "POST") (hkg : envTruthy gk = some kg) (hf : req.file = some fl) :
    Part000.handler gk plat f req =
      ⟨Part000.fetched plat f (getCorsHeaders req.origin) fl, some (Part000.requestOf kg fl)⟩ := by
  unfold Part000.handler
  simp [hm, hkg, hf]

/-- Helper: a validated POST within the size limit reaches the fetch and
pairs the post-fetch response with the gateway request. -/
theorem Analyze.handler_post_lov (lk : Option String) (plat : JsPlatform) (f : FetchResult)
    (req : HttpRequest) (fl : UploadedFile) (kl : String)
    (hm : req.method = "POST") (hkl : envTruthy lk = some kl) (hf : req.file = some fl)
    (hsz : fl.size ≤ MAX_FILE_SIZE) :
    Analyze.handler lk plat f req =
      ⟨Analyze.fetched plat f (getCorsHeaders req.origin) fl, some (Analyze.requestOf kl fl)⟩ := by
  unfold Analyze.handler
  have hgt : ¬ (fl.size > MAX_FILE_SIZE) := by omega
  simp [hm, hkl, hf, hgt]

/-- Helper: a non-ok fetch outcome is turned into the Gemini error throw. -/
theorem Part000.fetched_not_ok_gem (plat : JsPlatform) (f : FetchResult)
    (cors : List (String × String)) (fl : UploadedFile) (hok : f.ok = false) :
    Part000.fetched plat f cors fl =
      Part000.catchResp cors ("Google API Error: " ++ toString f.status) := by
  unfold Part000.fetched
  simp [hok]

/-- Helper: a non-ok fetch outcome is turned into the gateway error throw. -/
theorem Analyze.fetched_not_ok_lov (plat : JsPlatform) (f : FetchResult)
    (cors : List (String × String)) (fl : UploadedFile) (hok : f.ok = false) :
    Analyze.fetched plat f cors fl =
      Analyze.catchResp cors ("AI Service Error: " ++ toString f.status) := by
  unfold Analyze.fetched
  simp [hok]

/-- Helper: a missing or falsy model answer is turned into the emptiness
throw (Gemini flavour). -/
theorem Part000.fetched_empty_gem (plat : JsPlatform) (f : FetchResult)
    (cors : List (String × String)) (fl : UploadedFile)
    (hok : f.ok = true) (hnn : isNullJson f.bodyJson = false)
    (he : jsTruthyOpt (Part000.aiContent f.bodyJson) = false) :
    Part000.fetched plat f cors fl = Part000.catchResp cors "AI 응답이 비어있습니다." := by
  unfold Part000.fetched
  rw [hok, hnn]
  cases hac : Part000.aiContent f.bodyJson with
  | none => simp
  | some content =>
    rw [hac] at he
    simp only [jsTruthyOpt] at he
    simp [he]

/-- Helper: a missing or falsy model answer is turned into the emptiness
throw (gateway flavour). -/
theorem Analyze.fetched_empty_lov (plat : JsPlatform) (f : FetchResult)
    (cors : List (String × String)) (fl : UploadedFile)
    (hok : f.ok = true) (hnn : isNullJson f.bodyJson = false)
    (he : jsTruthyOpt (Analyze.aiContent f.bodyJson) = false) :
    Analyze.fetched plat f cors fl = Analyze.catchResp cors "Empty response from AI" := by
  unfold Analyze.fetched
  rw [hok, hnn]
  cases hac : Analyze.aiContent f.bodyJson with
  | none => simp
  | some content =>
    rw [hac] at he
    simp only [jsTruthyOpt] at he
    simp [he]

/-- Helper: with a non-empty string answer, the outcome of the Gemini side is
decided by JSON.parse of the cleaned answer. -/
theorem Part000.fetched_parse_gem (plat : JsPlatform) (f : FetchResult)
    (cors : List (String × String)) (fl : UploadedFile) (s : String)
    (hok : f.ok = true) (hc : Part000.aiContent f.bodyJson = some (Json.str s))
    (hs : s ≠ "") :
    Part000.fetched plat f cors fl =
      (match plat.parseJson (cleanFences s) with
       | none => Part000.catchResp cors (plat.parseErrMsg (cleanFences s))
       | some v =>
         if isNullJson v then Part000.catchResp cors plat.tyErrNullData
         else ⟨200, cors ++ ctJson, some (successBody (itemsOf v) fl.name)⟩) := by
  have hnn : isNullJson f.bodyJson = false := by
    cases hb : f.bodyJson <;> try rfl
    rw [hb] at hc
    rw [show Part000.aiContent Json.null = none from rfl] at hc
    cases hc
  unfold Part000.fetched
  rw [hok, hnn, hc]
  simp [jsTruthy, hs]

/-- Helper: with a non-empty string answer, the outcome of the gateway side is
decided by JSON.parse of the cleaned answer. -/
theorem Analyze.fetched_parse_lov (plat : JsPlatform) (f : FetchResult)
    (cors : List (String × String)) (fl : UploadedFile) (s : String)
    (hok : f.ok = true) (hc : Analyze.aiContent f.bodyJson = some (Json.str s))
    (hs : s ≠ "") :
    Analyze.fetched plat f cors fl =
      (match plat.parseJson (cleanFences s) with
       | none => Analyze.catchResp cors (plat.parseErrMsg (cleanFences s))
       | some v =>
         if isNullJson v then Analyze.catchResp cors plat.tyErrNullData
         else ⟨200, cors ++ ctJson, some (successBody (itemsOf v) fl.name)⟩) := by
  have hnn : isNullJson f.bodyJson = false := by
    cases hb : f.bodyJson <;> try rfl
    rw [hb] at hc
    rw [show Analyze.aiContent Json.null = none from rfl] at hc
    cases hc
  unfold Analyze.fetched
  rw [hok, hnn, hc]
  simp [jsTruthy, hs]

/-- Claim C8: each internally thrown error — unset API-key variable, non-ok
response from the AI service, empty model answer, or cleaned answer failing
JSON parsing — produces a 500 response whose JSON body carries the thrown
error message and which still carries the CORS headers. -/
theorem claim8_thrown_errors_500 (gk lk : Option String) (plat : JsPlatform)
    (f : FetchResult) (req : HttpRequest) (hm : req.method = "POST") :
    (gk = none →
      (Part000.handler gk plat f req).response =
        ⟨500, getCorsHeaders req.origin ++ ctJson,
         some (errJson "GEMINI_API_KEY is not configured in Vercel Settings")⟩) ∧
    (∀ fl kg, envTruthy gk = some kg → req.file = some fl → f.ok = false →
      (Part000.handler gk plat f req).response =
        ⟨500, getCorsHeaders req.origin ++ ctJson,
         some (errJson ("Google API Error: " ++ toString f.status))⟩) ∧
    (∀ fl kg, envTruthy gk = some kg → req.file = some fl → f.ok = true →
      isNullJson f.bodyJson = false → jsTruthyOpt (Part000.aiContent f.bodyJson) = false →
      (Part000.handler gk plat f req).response =
        ⟨500, getCorsHeaders req.origin ++ ctJson, some (errJson "AI 응답이 비어있습니다.")⟩) ∧
    (∀ fl kg s, envTruthy gk = some kg → req.file = some fl → f.ok = true →
      Part000.aiContent f.bodyJson = some (Json.str s) → s ≠ "" →
      plat.parseJson (cleanFences s) = none → plat.parseErrMsg (cleanFences s) ≠ "" →
      (Part000.handler gk plat f req).response =
        ⟨500, getCorsHeaders req.origin ++ ctJson,
         some (errJson (plat.parseErrMsg (cleanFences s)))⟩) ∧
    (lk = none →
      (Analyze.handler lk plat f req).response =
        ⟨500, getCorsHeaders req.origin ++ ctJson,
         some (errJson "LOVABLE_API_KEY is not configured in Vercel Settings")⟩) ∧
    (∀ fl kl, envTruthy lk = some kl → req.file = some fl → fl.size ≤ MAX_FILE_SIZE →
      f.ok = false →
      (Analyze.handler lk plat f req).response =
        ⟨500, getCorsHeaders req.origin ++ ctJson,
         some (errJson ("AI Service Error: " ++ toString f.status))⟩) ∧
    (∀ fl kl, envTruthy lk = some kl → req.file = some fl → fl.size ≤ MAX_FILE_SIZE →
      f.ok = true → isNullJson f.bodyJson = false →
      jsTruthyOpt (Analyze.aiContent f.bodyJson) = false →
      (Analyze.handler lk plat f req).response =
        ⟨500, getCorsHeaders req.origin ++ ctJson, some (errJson "Empty response from AI")⟩) ∧
    (∀ fl kl s, envTruthy lk = some kl → req.file = some fl → fl.size ≤ MAX_FILE_SIZE →
      f.ok = true → Analyze.aiContent f.bodyJson = some (Json.str s) → s ≠ "" →
      plat.parseJson (cleanFences s) = none →
      (Analyze.handler lk plat f req).response =
        ⟨500, getCorsHeaders req.origin ++ ctJson,
         some (errJson (plat.parseErrMsg (cleanFences s)))⟩) := by
  refine ⟨?_, ?_, ?_, ?_, ?_, ?_, ?_, ?_⟩
  · intro hk
    unfold Part000.handler
    simp [hm, hk, envTruthy, Part000.catchResp, jsOr]
  · intro fl kg hkg hf hok
    rw [Part000.handler_post_gem gk plat f req fl kg hm hkg hf]
    rw [show (⟨Part000.fetched plat f (getCorsHeaders req.origin) fl,
        some (Part000.requestOf kg fl)⟩ : HandlerResult).response
      = Part000.fetched plat f (getCorsHeaders req.origin) fl from rfl]
    rw [Part000.fetched_not_ok_gem plat f _ fl hok]
    unfold Part000.catchResp
    rw [jsOr_ne _ _ (append_ne_empty _ _ (by decide))]
  · intro fl kg hkg hf hok hnn he
    rw [Part000.handler_post_gem gk plat f req fl kg hm hkg hf]
    rw [show (⟨Part000.fetched plat f (getCorsHeaders req.origin) fl,
        some (Part000.requestOf kg fl)⟩ : HandlerResult).response
      = Part000.fetched plat f (getCorsHeaders req.origin) fl from rfl]
    rw [Part000.fetched_empty_gem plat f _ fl hok hnn he]
    unfold Part000.catchResp
    rw [jsOr_ne _ _ (by decide)]
  · intro fl kg s hkg hf hok hc hs hp hpe
    rw [Part000.handler_post_gem gk plat f req fl kg hm hkg hf]
    rw [show (⟨Part000.fetched plat f (getCorsHeaders req.origin) fl,
        some (Part000.requestOf kg fl)⟩ : HandlerResult).response
      = Part000.fetched plat f (getCorsHeaders req.origin) fl from rfl]
    rw [Part000.fetched_parse_gem plat f _ fl s hok hc hs, hp]
    unfold Part000.catchResp
    rw [jsOr_ne _ _ hpe]
  · intro hk
    unfold Analyze.handler
    simp [hm, hk, envTruthy, Analyze.catchResp]
  · intro fl kl hkl hf hsz hok
    rw [Analyze.handler_post_lov lk plat f req fl kl hm hkl hf hsz]
    rw [show (⟨Analyze.fetched plat f (getCorsHeaders req.origin) fl,
        some (Analyze.requestOf kl fl)⟩ : HandlerResult).response
      = Analyze.fetched plat f (getCorsHeaders req.origin) fl from rfl]
    rw [Analyze.fetched_not_ok_lov plat f _ fl hok]
    rfl
  · intro fl kl hkl hf hsz hok hnn he
    rw [Analyze.handler_post_lov lk plat f req fl kl hm hkl hf hsz]
    rw [show (⟨Analyze.fetched plat f (getCorsHeaders req.origin) fl,
        some (Analyze.requestOf kl fl)⟩ : HandlerResult).response
      = Analyze.fetched plat f (getCorsHeaders req.origin) fl from rfl]
    rw [Analyze.fetched_empty_lov plat f _ fl hok hnn he]
    rfl
  · intro fl kl s hkl hf hsz hok hc hs hp
    rw [Analyze.handler_post_lov lk plat f req fl kl hm hkl hf hsz]
    rw [show (⟨Analyze.fetched plat f (getCorsHeaders req.origin) fl,
        some (Analyze.requestOf kl fl)⟩ : HandlerResult).response
      = Analyze.fetched plat f (getCorsHeaders req.origin) fl from rfl]
    rw [Analyze.fetched_parse_lov plat f _ fl s hok hc hs, hp]
    rfl

/-- Witness for C8: with the key variable unset, a POST is answered 500
with the configuration error message and the CORS headers. -/
theorem claim8_thrown_errors_500_witness :
    ((postReq csvFile).method = "POST") ∧
    (Part000.handler none platW (geminiFetch "X") (postReq csvFile)).response =
      ⟨500, getCorsHeaders (some "http://localhost:5173") ++ ctJson,
       some (errJson "GEMINI_API_KEY is not configured in Vercel Settings")⟩ :=
  ⟨rfl,
   (claim8_thrown_errors_500 none none platW (geminiFetch "X") (postReq csvFile) rfl).1 rfl⟩

/-- Claim C10: the API key influences only the outbound request — two runs
differing only in the (non-empty) key value return identical responses on
every path — and the key is placed in the Gemini URL, respectively the
gateway Authorization header, of the outbound request. -/
theorem claim10_key_confined (k1 k2 : String) (plat : JsPlatform) (f : FetchResult)
    (req : HttpRequest) (h1 : k1 ≠ "") (h2 : k2 ≠ "") :
    ((Part000.handler (some k1) plat f req).response
        = (Part000.handler (some k2) plat f req).response ∧
     (Analyze.handler (some k1) plat f req).response
        = (Analyze.handler (some k2) plat f req).response) ∧
    (∀ fl, req.method = "POST" → req.file = some fl →
      (Part000.handler (some k1) plat f req).outbound = some (Part000.requestOf k1 fl) ∧
      (Part000.requestOf k1 fl).url =
        "https://generativelanguage.googleapis.com/v1beta/models/gemini-1.5-flash:generateContent?key="
          ++ k1 ∧
      (fl.size ≤ MAX_FILE_SIZE →
        (Analyze.handler (some k1) plat f req).outbound = some (Analyze.requestOf k1 fl)) ∧
      (Analyze.requestOf k1 fl).headers =
        [("Authorization", "Bearer " ++ k1), ("Content-Type", "application/json")]) := by
  have hk1 : envTruthy (some k1) = some k1 := by simp [envTruthy, h1]
  have hk2 : envTruthy (some k2) = some k2 := by simp [envTruthy, h2]
  refine ⟨⟨?_, ?_⟩, ?_⟩
  · unfold Part000.handler
    dsimp only
    split
    · rfl
    · split
      · rfl
      · rw [hk1, hk2]
        cases req.file <;> rfl
  · unfold Analyze.handler
    dsimp only
    split
    · rfl
    · split
      · rfl
      · rw [hk1, hk2]
        dsimp only
        cases req.file with
        | none => rfl
        | some fl =>
          dsimp only
          split
          · rfl
          · rfl
  · intro fl hm hf
    refine ⟨?_, rfl, ?_, rfl⟩
    · rw [Part000.handler_post_gem (some k1) plat f req fl k1 hm hk1 hf]
    · intro hsz
      rw [Analyze.handler_post_lov (some k1) plat f req fl k1 hm hk1 hf hsz]

/-- Witness for C10 at two concrete keys. -/
theorem claim10_key_confined_witness :
    (("alpha" : String) ≠ "" ∧ ("beta" : String) ≠ "") ∧
    ((Part000.handler (some "alpha") platW (geminiFetch "X") (postReq csvFile)).response
      = (Part000.handler (some "beta") platW (geminiFetch "X") (postReq csvFile)).response ∧
     (Analyze.handler (some "alpha") platW (geminiFetch "X") (postReq csvFile)).response
      = (Analyze.handler (some "beta") platW (geminiFetch "X") (postReq csvFile)).response) :=
  ⟨⟨by decide, by decide⟩,
   (claim10_key_confined "alpha" "beta" platW (geminiFetch "X") (postReq csvFile)
      (by decide) (by decide)).1⟩

/-- Claim C3: before JSON-parsing the model answer the handlers remove
every occurrence of the json-tagged fence and of the bare fence and trim
the result, and the value relayed to the caller is parsed from exactly this
cleaned string (for the gateway handler the truncated parsing tail is
modelled from the spec). -/
theorem claim3_fence_cleanup (gk lk : Option String) (plat : JsPlatform) (f : FetchResult)
    (req : HttpRequest) (fl : UploadedFile) (kg kl s : String)
    (hm : req.method = "POST") (hkg : envTruthy gk = some kg) (hkl : envTruthy lk = some kl)
    (hf : req.file = some fl) (hok : f.ok = true) (hs : s ≠ "") :
    (∀ x, cleanFences x = jsTrim (removeAll (removeAll x "\x60\x60\x60json") "\x60\x60\x60")) ∧
    (Part000.aiContent f.bodyJson = some (Json.str s) →
      (Part000.handler gk plat f req).response =
        (match plat.parseJson (cleanFences s) with
         | none => Part000.catchResp (getCorsHeaders req.origin) (plat.parseErrMsg (cleanFences s))
         | some v =>
           if isNullJson v then Part000.catchResp (getCorsHeaders req.origin) plat.tyErrNullData
           else ⟨200, getCorsHeaders req.origin ++ ctJson,
                 some (successBody (itemsOf v) fl.name)⟩)) ∧
    (fl.size ≤ MAX_FILE_SIZE → Analyze.aiContent f.bodyJson = some (Json.str s) →
      (Analyze.handler lk plat f req).response =
        (match plat.parseJson (cleanFences s) with
         | none => Analyze.catchResp (getCorsHeaders req.origin) (plat.parseErrMsg (cleanFences s))
         | some v =>
           if isNullJson v then Analyze.catchResp (getCorsHeaders req.origin) plat.tyErrNullData
           else ⟨200, getCorsHeaders req.origin ++ ctJson,
                 some (successBody (itemsOf v) fl.name)⟩)) := by
  refine ⟨fun x => rfl, ?_, ?_⟩
  · intro hc
    rw [Part000.handler_post_gem gk plat f req fl kg hm hkg hf]
    exact Part000.fetched_parse_gem plat f _ fl s hok hc hs
  · intro hsz hc
    rw [Analyze.handler_post_lov lk plat f req fl kl hm hkl hf hsz]
    exact Analyze.fetched_parse_lov plat f _ fl s hok hc hs

/-- Witness for C3 at a fenced concrete answer. -/
theorem claim3_fence_cleanup_witness :
    (("\x60\x60\x60json X\x60\x60\x60" : String) ≠ "" ∧
     cleanFences "\x60\x60\x60json X\x60\x60\x60" = "X") ∧
    (Part000.handler (some "k") platW (geminiFetch "\x60\x60\x60json X\x60\x60\x60")
        (postReq csvFile)).response =
      (match platW.parseJson (cleanFences "\x60\x60\x60json X\x60\x60\x60") with
       | none => Part000.catchResp (getCorsHeaders (some "http://localhost:5173"))
           (platW.parseErrMsg (cleanFences "\x60\x60\x60json X\x60\x60\x60"))
       | some v =>
         if isNullJson v then
           Part000.catchResp (getCorsHeaders (some "http://localhost:5173")) platW.tyErrNullData
         else ⟨200, getCorsHeaders (some "http://localhost:5173") ++ ctJson,
               some (successBody (itemsOf v) csvFile.name)⟩) :=
  ⟨⟨by decide, rfl⟩,
   (claim3_fence_cleanup (some "k") (some "k") platW
      (geminiFetch "\x60\x60\x60json X\x60\x60\x60") (postReq csvFile) csvFile "k" "k"
      "\x60\x60\x60json X\x60\x60\x60" rfl rfl rfl rfl rfl (by decide)).2.1 rfl⟩

/-- Claim C1 counterexample: with the model answering an object whose items
field is present but null, the success body carries the empty array rather
than the value of that field; and with the model answering the JSON text null,
the handler returns 500 rather than any success body. -/
theorem claim1_items_counterexample :
    (platW.parseJson "\x7b\"items\": null\x7d" = some (Json.obj [("items", Json.null)]) ∧
     Json.getProp (Json.obj [("items", Json.null)]) "items" = some Json.null ∧
     (Part000.handler (some "k") platW (geminiFetch "\x7b\"items\": null\x7d")
        (postReq csvFile)).response.body = some (successBody (Json.arr []) "data.csv") ∧
     Json.arr [] ≠ Json.null) ∧
    (Part000.handler (some "k") platW (geminiFetch "null") (postReq csvFile)).response.status
      = 500 :=
  ⟨⟨rfl, rfl, rfl, fun h => nomatch h⟩, rfl⟩

/-- Claim C1 (amended): on a validated POST whose model answer is a
non-empty string and whose cleaned text parses to a JSON value other than
null, the handler answers 200 with success true, fileName the name of the
upload, and data.items the items field of the parsed value when present
with a JS-truthy value, otherwise the parsed value itself when it is an
array, otherwise the empty array. -/
theorem claim1_success_relay (gk : Option String) (plat : JsPlatform) (f : FetchResult)
    (req : HttpRequest) (fl : UploadedFile) (kg s : String) (v : Json)
    (hm : req.method = "POST") (hkg : envTruthy gk = some kg) (hf : req.file = some fl)
    (hok : f.ok = true) (hc : Part000.aiContent f.bodyJson = some (Json.str s)) (hs : s ≠ "")
    (hp : plat.parseJson (cleanFences s) = some v) (hv : isNullJson v = false) :
    (Part000.handler gk plat f req).response =
      ⟨200, getCorsHeaders req.origin ++ ctJson, some (successBody (specItems v) fl.name)⟩ := by
  rw [Part000.handler_post_gem gk plat f req fl kg hm hkg hf]
  rw [show (⟨Part000.fetched plat f (getCorsHeaders req.origin) fl,
      some (Part000.requestOf kg fl)⟩ : HandlerResult).response
    = Part000.fetched plat f (getCorsHeaders req.origin) fl from rfl]
  rw [Part000.fetched_parse_gem plat f _ fl s hok hc hs, hp]
  rw [specItems_eq_itemsOf]
  simp [hv]

/-- Witness for C1 (amended) at a concrete successful run. -/
theorem claim1_success_relay_witness :
    (("X" : String) ≠ "" ∧
     platW.parseJson (cleanFences "X") = some (Json.obj [("items", Json.arr [])]) ∧
     isNullJson (Json.obj [("items", Json.arr [])]) = false) ∧
    (Part000.handler (some "k") platW (geminiFetch "X") (postReq csvFile)).response =
      ⟨200, getCorsHeaders (some "http://localhost:5173") ++ ctJson,
       some (successBody (specItems (Json.obj [("items", Json.arr [])])) "data.csv")⟩ :=
  ⟨⟨by decide, rfl, rfl⟩,
   claim1_success_relay (some "k") platW (geminiFetch "X") (postReq csvFile) csvFile "k" "X"
     (Json.obj [("items", Json.arr [])]) rfl rfl rfl rfl rfl (by decide) rfl rfl⟩

set_option maxRecDepth 100000 in
/-- Claim C7: the 0.68 yield default and the ingot-weight back-calculation
(weight divided by recovery rate) exist only as instruction text inside the
prompt string, which also merely mentions calculatedIngotWeight in its
example; the handler relays whatever items value the model produced,
verbatim and unvalidated. -/
theorem claim7_prompt_only_intelligence :
    jsIncludes Part000.systemPrompt "0.68" = true ∧
    jsIncludes Part000.systemPrompt "(중량 / 회수율)" = true ∧
    jsIncludes Part000.systemPrompt "calculatedIngotWeight" = true ∧
    (∀ gk plat f req fl kg s v, req.method = "POST" → envTruthy gk = some kg →
      req.file = some fl → f.ok = true →
      Part000.aiContent f.bodyJson = some (Json.str s) → s ≠ "" →
      plat.parseJson (cleanFences s) = some (Json.obj [("items", v)]) → jsTruthy v = true →
      (Part000.handler gk plat f req).response =
        ⟨200, getCorsHeaders req.origin ++ ctJson, some (successBody v fl.name)⟩) := by
  refine ⟨by decide, by decide, by decide, ?_⟩
  intro gk plat f req fl kg s v hm hkg hf hok hc hs hp hv
  rw [Part000.handler_post_gem gk plat f req fl kg hm hkg hf]
  rw [show (⟨Part000.fetched plat f (getCorsHeaders req.origin) fl,
      some (Part000.requestOf kg fl)⟩ : HandlerResult).response
    = Part000.fetched plat f (getCorsHeaders req.origin) fl from rfl]
  rw [Part000.fetched_parse_gem plat f _ fl s hok hc hs, hp]
  simp [itemsOf, Json.getProp, jsTruthyOpt, hv, isNullJson]

/-- Witness for the relay component of C7 at a concrete run. -/
theorem claim7_prompt_only_intelligence_witness :
    (platW.parseJson (cleanFences "X") = some (Json.obj [("items", Json.arr [])]) ∧
     jsTruthy (Json.arr []) = true) ∧
    (Part000.handler (some "k") platW (geminiFetch "X") (postReq csvFile)).response =
      ⟨200, getCorsHeaders (some "http://localhost:5173") ++ ctJson,
       some (successBody (Json.arr []) "data.csv")⟩ :=
  ⟨⟨rfl, rfl⟩,
   claim7_prompt_only_intelligence.2.2.2 (some "k") platW (geminiFetch "X") (postReq csvFile)
     csvFile "k" "X" (Json.arr []) rfl rfl rfl rfl rfl (by decide) rfl rfl⟩
